import Mathlib

/-! Shallow embedding of the media-processing pipeline orchestrator of this
repository (apps/ai/app/services/ai_pipeline.py,
apps/ai/app/services/gemini_moderation.py, apps/ai/app/main.py).

External service calls (Whisper transcription, ShieldGemma text moderation,
Gemini summarization and image moderation, HTTP download, GIF frame
extraction) are modelled by outcome values supplied as inputs to the pipeline
functions; the orchestration logic itself is translated directly from the
Python source.  Wall-clock fields (`started_at`, `completed_at`,
`duration_ms`, `processing_time_ms`) are not modelled: no claim under study
mentions them.  Python floats that are merely passed through (durations,
scores, backoff seconds) are modelled as rationals. -/

namespace MediaPipeline

/-- Python `s or dflt` for an optional string `s`: `dflt` when `s` is absent
or empty (falsy), otherwise `s`. -/
def pyOrString : Option String → String → String
  | some s, dflt => if s = "" then dflt else s
  | none, dflt => dflt

/-- Python `s.strip()`: remove leading and trailing whitespace. -/
def pyStrip (s : String) : String :=
  String.mk (((s.data.dropWhile Char.isWhitespace).reverse.dropWhile
    Char.isWhitespace).reverse)

/-- Python `s[:n]`: the first `n` characters of `s`. -/
def pyTake (n : Nat) (s : String) : String :=
  String.mk (s.data.take n)

/-- Python `s.lower()`. -/
def pyLower (s : String) : String :=
  String.mk (s.data.map Char.toLower)

/-- Python `s.startswith(pre)`. -/
def pyStartsWith (s pre : String) : Bool :=
  pre.data.isPrefixOf s.data

/-- Python `s.endswith(suf)`. -/
def pyEndsWith (s suf : String) : Bool :=
  suf.data.isSuffixOf s.data

/-- Enum `PipelineStatus` of ai_pipeline.py. -/
inductive PipelineStatus
  | PENDING
  | RUNNING
  | COMPLETED
  | FAILED
  | SKIPPED
  deriving DecidableEq

/-- Enum `PipelineVerdict` of ai_pipeline.py. -/
inductive PipelineVerdict
  | SAFE
  | UNSAFE
  | ERROR
  deriving DecidableEq

/-- Enum `SummaryStyle` of gemini_summarizer.py (its values as used by the
pipeline). -/
inductive SummaryStyle
  | brief
  | detailed
  | bullet_points
  deriving DecidableEq

/-- The `.value` string of a `SummaryStyle` member. -/
def SummaryStyle.value : SummaryStyle → String
  | .brief => "brief"
  | .detailed => "detailed"
  | .bullet_points => "bullet_points"

/-- Enum `SafetyLevel` of gemini_moderation.py. -/
inductive SafetyLevel
  | STRICT
  | MODERATE
  | LENIENT
  deriving DecidableEq

/-- The `.value` string of a `SafetyLevel` member. -/
def SafetyLevel.value : SafetyLevel → String
  | .STRICT => "strict"
  | .MODERATE => "moderate"
  | .LENIENT => "lenient"

/-- One timed transcript segment (`{start, end, text}`; `end` is renamed
`stop` because `end` is a Lean keyword). -/
structure Segment where
  start : Rat
  stop : Rat
  text : String
  deriving DecidableEq

/-- Model `TranscriptionData` of ai_pipeline.py. -/
structure TranscriptionData where
  text : String
  segments : List Segment
  duration : Rat
  language : Option String
  deriving DecidableEq

/-- Model `TextModerationData` of ai_pipeline.py. -/
structure TextModerationData where
  verdict : String
  is_safe : Bool
  flagged_categories : List String
  max_violation_score : Rat
  explanation : String
  deriving DecidableEq

/-- Model `SummarizationData` of ai_pipeline.py. -/
structure SummarizationData where
  summary : String
  style : String
  deriving DecidableEq

/-- Model `ImageModerationData` of ai_pipeline.py. -/
structure ImageModerationData where
  is_safe : Bool
  reason : String
  categories : List String
  level : String
  deriving DecidableEq

/-- The shapes of the free-form `data` dict attached to a `StageResult` at
the various construction sites in ai_pipeline.py and main.py. -/
inductive StageData
  | transcriptionInfo (text_length : Nat) (segment_count : Nat) (duration : Rat)
  | moderationInfo (verdict : String) (is_safe : Bool)
      (flagged_categories : List String) (max_score : Rat)
  | summaryInfo (summary_length : Nat) (style : String)
  | skipReason (reason : String)
  | downloadInfo (size_bytes : Nat) (mime_type : String)
  | imageModInfo (is_safe : Bool) (categories : List String) (level : String)
  | gifModInfo (moderation : Option ImageModerationData)
  deriving DecidableEq

/-- Model `StageResult` of ai_pipeline.py (timing fields not modelled). -/
structure StageResult where
  stage : String
  status : PipelineStatus
  error : Option String
  data : Option StageData
  deriving DecidableEq

/-- Build a `StageResult` (the timing fields of the source are not
modelled). -/
def mkStage (stage : String) (status : PipelineStatus) (error : Option String)
    (data : Option StageData) : StageResult :=
  { stage := stage, status := status, error := error, data := data }

/-- Model `VideoPipelineRequest` of ai_pipeline.py (the URL as a plain
string). -/
structure VideoPipelineRequest where
  file_url : String
  language : Option String
  summary_style : SummaryStyle
  skip_moderation : Bool
  skip_summary : Bool
  deriving DecidableEq

/-- Model `VideoPipelineResponse` of ai_pipeline.py (timing fields not
modelled). -/
structure VideoPipelineResponse where
  pipeline : String
  file_url : String
  verdict : PipelineVerdict
  is_safe : Bool
  stages : List StageResult
  transcription : Option TranscriptionData
  text_moderation : Option TextModerationData
  summary : Option SummarizationData
  short_circuited : Bool
  short_circuit_reason : Option String
  deriving DecidableEq

/-- The dict returned by `transcribe_from_url` of whisper_service.py, as
read by the pipeline (`text`, `segments`, `duration`). -/
structure WhisperResult where
  text : String
  segments : List Segment
  duration : Rat
  deriving DecidableEq

/-- Outcome of the `transcribe_from_url` call of pipeline stage 1: success,
or one of the exception classes distinguished by the `except` clauses at
ai_pipeline.py lines 259-302. -/
inductive TranscribeOutcome
  | ok (result : WhisperResult)
  | downloadError (msg : String)
  | unsupportedMediaError (msg : String)
  | otherError (msg : String)
  deriving DecidableEq

/-- The dict returned by `ShieldGemmaService.moderate_text`, as read by the
pipeline. -/
structure ShieldGemmaResult where
  verdict : String
  is_safe : Bool
  flagged_categories : List String
  max_violation_score : Rat
  explanation : String
  deriving DecidableEq

/-- Outcome of the `ShieldGemmaService.moderate_text` call of pipeline stage
2: success, the service's typed `ShieldGemmaError`, or any other exception
(the two `except` clauses at ai_pipeline.py lines 353-383). -/
inductive ModerateTextOutcome
  | ok (result : ShieldGemmaResult)
  | shieldGemmaError (msg : String)
  | otherError (msg : String)
  deriving DecidableEq

/-- Outcome of the `summarizer.summarize` call of pipeline stage 3. -/
inductive SummarizeOutcome
  | ok (text : String)
  | failure (msg : String)
  deriving DecidableEq

/-- The outcomes of the three external calls a video pipeline run can make
(each is invoked at most once per run). -/
structure VideoEnv where
  transcribe : TranscribeOutcome
  moderate_text : ModerateTextOutcome
  summarize : SummarizeOutcome
  deriving DecidableEq

/-- The mutable local state of `VideoPipelineService.process`
(ai_pipeline.py lines 199-207). -/
structure VideoRunState where
  stages : List StageResult
  transcription_data : Option TranscriptionData
  moderation_data : Option TextModerationData
  summary_data : Option SummarizationData
  short_circuited : Bool
  short_circuit_reason : Option String
  overall_verdict : PipelineVerdict
  is_safe : Bool
  deriving DecidableEq

/-- Initial state of a video pipeline run (ai_pipeline.py lines 199-207). -/
def initVideoState : VideoRunState :=
  { stages := [], transcription_data := none, moderation_data := none,
    summary_data := none, short_circuited := false,
    short_circuit_reason := none, overall_verdict := PipelineVerdict.SAFE,
    is_safe := true }

/-- Stage 1 (transcription) of `VideoPipelineService.process`,
ai_pipeline.py lines 216-302. -/
def videoStage1 (request : VideoPipelineRequest) (outcome : TranscribeOutcome)
    (s : VideoRunState) : VideoRunState :=
  match outcome with
  | .ok result =>
      let tdata : TranscriptionData :=
        { text := result.text, segments := result.segments,
          duration := result.duration, language := request.language }
      let s1 :=
        { s with
          transcription_data := some tdata,
          stages := s.stages ++ [mkStage "transcription"
            PipelineStatus.COMPLETED none
            (some (StageData.transcriptionInfo tdata.text.length
              tdata.segments.length tdata.duration))] }
      if pyStrip tdata.text = "" then
        { s1 with
          short_circuited := true,
          short_circuit_reason :=
            some "Transcription returned empty text - no audio content detected",
          overall_verdict := PipelineVerdict.ERROR }
      else s1
  | .downloadError msg =>
      { s with
        stages := s.stages ++ [mkStage "transcription" PipelineStatus.FAILED
          (some ("Download failed: " ++ msg)) none],
        overall_verdict := PipelineVerdict.ERROR,
        short_circuited := true,
        short_circuit_reason := some ("Failed to download media: " ++ msg) }
  | .unsupportedMediaError msg =>
      { s with
        stages := s.stages ++ [mkStage "transcription" PipelineStatus.FAILED
          (some ("Unsupported media: " ++ msg)) none],
        overall_verdict := PipelineVerdict.ERROR,
        short_circuited := true,
        short_circuit_reason := some ("Unsupported media format: " ++ msg) }
  | .otherError msg =>
      { s with
        stages := s.stages ++ [mkStage "transcription" PipelineStatus.FAILED
          (some msg) none],
        overall_verdict := PipelineVerdict.ERROR,
        short_circuited := true,
        short_circuit_reason := some ("Transcription error: " ++ msg) }

/-- The degraded `TextModerationData` recorded when the moderation service
raises its typed error (ai_pipeline.py lines 365-371). -/
def degradedModeration (msg : String) : TextModerationData :=
  { verdict := "error", is_safe := false, flagged_categories := [],
    max_violation_score := 0,
    explanation := "Moderation service error: " ++ msg }

/-- Stage 2 (text moderation) of `VideoPipelineService.process`,
ai_pipeline.py lines 304-398. -/
def videoStage2 (request : VideoPipelineRequest) (outcome : ModerateTextOutcome)
    (s : VideoRunState) : VideoRunState :=
  if !s.short_circuited && !request.skip_moderation then
    match outcome with
    | .ok result =>
        let mdata : TextModerationData :=
          { verdict := result.verdict, is_safe := result.is_safe,
            flagged_categories := result.flagged_categories,
            max_violation_score := result.max_violation_score,
            explanation := result.explanation }
        let s1 :=
          { s with
            moderation_data := some mdata,
            stages := s.stages ++ [mkStage "text_moderation"
              PipelineStatus.COMPLETED none
              (some (StageData.moderationInfo mdata.verdict
                mdata.is_safe mdata.flagged_categories
                mdata.max_violation_score))] }
        if !mdata.is_safe then
          { s1 with
            short_circuited := true,
            short_circuit_reason :=
              some ("Content moderation failed: " ++ pyTake 200 mdata.explanation),
            overall_verdict := PipelineVerdict.UNSAFE,
            is_safe := false }
        else s1
    | .shieldGemmaError msg =>
        { s with
          stages := s.stages ++ [mkStage "text_moderation"
            PipelineStatus.FAILED (some msg) none],
          moderation_data := some (degradedModeration msg) }
    | .otherError msg =>
        { s with
          stages := s.stages ++ [mkStage "text_moderation"
            PipelineStatus.FAILED (some msg) none] }
  else if request.skip_moderation then
    { s with stages := s.stages ++ [mkStage "text_moderation"
        PipelineStatus.SKIPPED none
        (some (StageData.skipReason "Skipped by request"))] }
  else
    { s with stages := s.stages ++ [mkStage "text_moderation"
        PipelineStatus.SKIPPED none
        (some (StageData.skipReason "Previous stage failed"))] }

/-- Stage 3 (summarization) of `VideoPipelineService.process`,
ai_pipeline.py lines 400-468. -/
def videoStage3 (request : VideoPipelineRequest) (outcome : SummarizeOutcome)
    (s : VideoRunState) : VideoRunState :=
  if !s.short_circuited && !request.skip_summary then
    match outcome with
    | .ok text =>
        let sdata : SummarizationData :=
          { summary := text, style := request.summary_style.value }
        { s with
          summary_data := some sdata,
          stages := s.stages ++ [mkStage "summarization"
            PipelineStatus.COMPLETED none
            (some (StageData.summaryInfo sdata.summary.length sdata.style))] }
    | .failure msg =>
        { s with stages := s.stages ++ [mkStage "summarization"
            PipelineStatus.FAILED (some msg) none] }
  else if request.skip_summary then
    { s with stages := s.stages ++ [mkStage "summarization"
        PipelineStatus.SKIPPED none
        (some (StageData.skipReason "Skipped by request"))] }
  else
    { s with stages := s.stages ++ [mkStage "summarization"
        PipelineStatus.SKIPPED none
        (some (StageData.skipReason
          (pyOrString s.short_circuit_reason "Content flagged as unsafe")))] }

/-- Model `VideoPipelineService.process` of ai_pipeline.py: run the three
stages over the initial state and build the response (lines 470-494). -/
def VideoPipelineService.process (request : VideoPipelineRequest)
    (env : VideoEnv) : VideoPipelineResponse :=
  let s := videoStage3 request env.summarize
    (videoStage2 request env.moderate_text
      (videoStage1 request env.transcribe initVideoState))
  { pipeline := "video", file_url := request.file_url,
    verdict := s.overall_verdict, is_safe := s.is_safe,
    stages := s.stages, transcription := s.transcription_data,
    text_moderation := s.moderation_data, summary := s.summary_data,
    short_circuited := s.short_circuited,
    short_circuit_reason := s.short_circuit_reason }

/-- Spec-level final verdict of a video pipeline run, following the spec's
"Final verdict derivation" sentence: `safe` unless stage 1 raised or
produced empty text (then `error`) or stage 2 ran and explicitly flagged the
content (then `unsafe`); the summarization outcome plays no part. -/
def videoVerdictSpec (request : VideoPipelineRequest) (env : VideoEnv) :
    PipelineVerdict :=
  match env.transcribe with
  | .ok r =>
      if pyStrip r.text = "" then PipelineVerdict.ERROR
      else if request.skip_moderation then PipelineVerdict.SAFE
      else
        match env.moderate_text with
        | .ok m =>
            if m.is_safe then PipelineVerdict.SAFE else PipelineVerdict.UNSAFE
        | _ => PipelineVerdict.SAFE
  | _ => PipelineVerdict.ERROR

/-- Split a list of characters at the first colon — Python
`cat.split(":", 1)` — returning the pieces before and after the first `':'`,
or `none` when there is no colon (so `split` returned a single piece). -/
def splitFirstColon : List Char → Option (List Char × List Char)
  | [] => none
  | c :: rest =>
      if c = ':' then some ([], rest)
      else (splitFirstColon rest).map (fun p => (c :: p.1, p.2))

/-- The severity string `_apply_threshold` reads from one category entry:
`parts[1].strip().lower()` when the entry contains a colon, `"moderate"`
otherwise (gemini_moderation.py lines 129-135). -/
def severityStrOf (cat : String) : String :=
  match splitFirstColon cat.data with
  | some p => pyLower (pyStrip (String.mk p.2))
  | none => "moderate"

/-- The dict `severity_map` together with its `.get` default of 2
(gemini_moderation.py lines 126 and 136). -/
def severityRank (sevStr : String) : Nat :=
  if sevStr = "none" then 0
  else if sevStr = "mild" then 1
  else if sevStr = "moderate" then 2
  else if sevStr = "severe" then 3
  else 2

/-- Model `_apply_threshold` of gemini_moderation.py lines 118-148: take the
maximum severity across all categories and compare it against the
per-strictness-level cutoff, returning the is-safe boolean. -/
def _apply_threshold (categories : List String) (level : SafetyLevel) : Bool :=
  let max_severity :=
    categories.foldl (fun acc cat => max acc (severityRank (severityStrOf cat))) 0
  match level with
  | .STRICT => decide (max_severity ≤ 0)
  | .MODERATE => decide (max_severity ≤ 1)
  | .LENIENT => decide (max_severity ≤ 2)

/-- The parsed JSON object returned by the Gemini image-moderation call,
each field optional because `moderate_image` reads them defensively through
`.get` (gemini_moderation.py lines 203-205). -/
structure GeminiJson where
  is_flagged : Option Bool
  categories : Option (List String)
  reason : Option String
  deriving DecidableEq

/-- The result dict of `moderate_image` (gemini_moderation.py lines
224-229). -/
structure ImageModResult where
  is_safe : Bool
  reason : String
  categories : List String
  level : String
  deriving DecidableEq

/-- Model the decision tail of `moderate_image` (gemini_moderation.py lines
203-229): read the parsed JSON fields with their defaults, apply the
threshold for the requested level, and AND the threshold verdict with the
negation of the model's own flagged judgment. -/
def moderate_image_decision (data : GeminiJson) (level : SafetyLevel) :
    ImageModResult :=
  let is_flagged := data.is_flagged.getD false
  let categories := data.categories.getD []
  let reason := pyOrString data.reason "No reason provided"
  let is_safe_by_threshold := _apply_threshold categories level
  { is_safe := is_safe_by_threshold && !is_flagged,
    reason := reason, categories := categories, level := level.value }

/-- Spec-level cutoff per strictness level, following the spec's words: the
largest severity rank that is still acceptable (strict: only `none`;
moderate: up to `mild`; lenient: up to `moderate`, only `severe` is always
rejected). -/
def levelCutoff : SafetyLevel → Nat
  | .STRICT => 0
  | .MODERATE => 1
  | .LENIENT => 2

/-- Spec-level maximum severity of a list of `(name, severity)` category
pairs. -/
def maxSeveritySpec (pairs : List (String × String)) : Nat :=
  pairs.foldl (fun acc p => max acc (severityRank p.2)) 0

/-- Outcome of the HTTP download of image pipeline stage 1, carrying the
response body bytes and the content-type header on success (ai_pipeline.py
lines 541-549 and the `except` clauses at lines 601-625). -/
inductive DownloadOutcome
  | ok (content : List Nat) (content_type : Option String)
  | httpError (msg : String)
  | otherError (msg : String)
  deriving DecidableEq

/-- Outcome of the PIL GIF-to-PNG first-frame conversion (ai_pipeline.py
lines 552-560). -/
inductive GifConvertOutcome
  | ok (png_bytes : List Nat)
  | failure (msg : String)
  deriving DecidableEq

/-- Outcome of the `gemini_moderate_image` call of image pipeline stage 2:
the result dict, the typed `ModerationError`, or any other exception
(ai_pipeline.py lines 634-701). -/
inductive ImageModerateOutcome
  | ok (result : ImageModResult)
  | moderationError (msg : String)
  | otherError (msg : String)
  deriving DecidableEq

/-- Outcomes of the external calls an image pipeline run can make. -/
structure ImageEnv where
  download : DownloadOutcome
  gif_convert : GifConvertOutcome
  moderate : ImageModerateOutcome
  deriving DecidableEq

/-- Model `ImagePipelineRequest` of ai_pipeline.py. -/
structure ImagePipelineRequest where
  file_url : String
  safety_level : SafetyLevel
  user : Option String
  deriving DecidableEq

/-- Model `ImagePipelineResponse` of ai_pipeline.py (timing fields not
modelled). -/
structure ImagePipelineResponse where
  pipeline : String
  file_url : String
  verdict : PipelineVerdict
  is_safe : Bool
  stages : List StageResult
  moderation : Option ImageModerationData
  deriving DecidableEq

/-- Python `s.rstrip("/")`. -/
def pyRstripSlash (s : String) : String :=
  String.mk ((s.data.reverse.dropWhile (fun c => c = '/')).reverse)

/-- Stage 2 (image moderation) of `ImagePipelineService.process` for the
case where the download produced bytes, followed by the response
construction (ai_pipeline.py lines 627-701 and 709-729). -/
def imageModerationPhase (file_url : String) (downloadStage : StageResult)
    (outcome : ImageModerateOutcome) : ImagePipelineResponse :=
  match outcome with
  | .ok mod_result =>
      let mdata : ImageModerationData :=
        { is_safe := mod_result.is_safe, reason := mod_result.reason,
          categories := mod_result.categories, level := mod_result.level }
      { pipeline := "image", file_url := file_url,
        verdict := if mdata.is_safe then PipelineVerdict.SAFE
          else PipelineVerdict.UNSAFE,
        is_safe := mdata.is_safe,
        stages := [downloadStage, mkStage "image_moderation"
          PipelineStatus.COMPLETED none
          (some (StageData.imageModInfo mdata.is_safe mdata.categories
            mdata.level))],
        moderation := some mdata }
  | .moderationError msg =>
      { pipeline := "image", file_url := file_url,
        verdict := PipelineVerdict.ERROR, is_safe := false,
        stages := [downloadStage, mkStage "image_moderation"
          PipelineStatus.FAILED (some msg) none],
        moderation := none }
  | .otherError msg =>
      { pipeline := "image", file_url := file_url,
        verdict := PipelineVerdict.ERROR, is_safe := false,
        stages := [downloadStage, mkStage "image_moderation"
          PipelineStatus.FAILED (some msg) none],
        moderation := none }

/-- Model `ImagePipelineService.process` of ai_pipeline.py lines 509-729.
On a successful download of a GIF the bytes are converted to a PNG first
frame; a conversion failure returns early with the download stage `FAILED`.
On a download exception the moderation stage is recorded as `SKIPPED`. -/
def ImagePipelineService.process (request : ImagePipelineRequest)
    (env : ImageEnv) : ImagePipelineResponse :=
  let file_url := pyRstripSlash request.file_url
  match env.download with
  | .ok content ctype =>
      let mime_type := ctype.getD "image/jpeg"
      if pyStartsWith (pyLower mime_type) "image/gif" then
        match env.gif_convert with
        | .ok png_bytes =>
            imageModerationPhase file_url
              (mkStage "download" PipelineStatus.COMPLETED none
                (some (StageData.downloadInfo png_bytes.length "image/png")))
              env.moderate
        | .failure msg =>
            { pipeline := "image", file_url := file_url,
              verdict := PipelineVerdict.ERROR, is_safe := false,
              stages := [mkStage "download" PipelineStatus.FAILED
                (some ("GIF conversion failed: " ++ msg)) none],
              moderation := none }
      else
        imageModerationPhase file_url
          (mkStage "download" PipelineStatus.COMPLETED none
            (some (StageData.downloadInfo content.length mime_type)))
          env.moderate
  | .httpError msg =>
      { pipeline := "image", file_url := file_url,
        verdict := PipelineVerdict.ERROR, is_safe := true,
        stages := [mkStage "download" PipelineStatus.FAILED
          (some ("HTTP error: " ++ msg)) none,
          mkStage "image_moderation" PipelineStatus.SKIPPED none
          (some (StageData.skipReason "Download failed"))],
        moderation := none }
  | .otherError msg =>
      { pipeline := "image", file_url := file_url,
        verdict := PipelineVerdict.ERROR, is_safe := true,
        stages := [mkStage "download" PipelineStatus.FAILED (some msg) none,
          mkStage "image_moderation" PipelineStatus.SKIPPED none
          (some (StageData.skipReason "Download failed"))],
        moderation := none }

/-- Model the `/process-video` handler `process_video` of main.py lines
419-488.  The request URL's parsed path is supplied by the caller (URL
parsing is the standard library's `urlparse`, an external collaborator).  A
path ending in `.gif` is routed through the image pipeline with level
`MODERATE` and reported as a single synthetic stage; anything else runs the
video pipeline. -/
def process_video (request : VideoPipelineRequest) (parsed_path : String)
    (ienv : ImageEnv) (venv : VideoEnv) : VideoPipelineResponse :=
  if pyEndsWith (pyLower parsed_path) ".gif" then
    let img_result := ImagePipelineService.process
      { file_url := request.file_url, safety_level := SafetyLevel.MODERATE,
        user := none } ienv
    let stage := mkStage "gif_image_moderation"
      (if img_result.is_safe then PipelineStatus.COMPLETED
        else PipelineStatus.FAILED)
      (if img_result.is_safe then none else some "Image failed moderation")
      (some (StageData.gifModInfo img_result.moderation))
    { pipeline := "video", file_url := request.file_url,
      verdict := if img_result.is_safe then PipelineVerdict.SAFE
        else PipelineVerdict.UNSAFE,
      is_safe := img_result.is_safe,
      stages := [stage],
      transcription := none, text_moderation := none, summary := none,
      short_circuited := true,
      short_circuit_reason := some "GIF content routed through image moderation" }
  else
    VideoPipelineService.process request venv

/-- Trace of one run of the retry wrapper: how many times the unit of work
was invoked, the sleeps performed between consecutive attempts (seconds),
and the final outcome. -/
structure RetryTrace (α : Type) where
  calls : Nat
  sleeps : List Rat
  outcome : Except String α

/-- Python `str(e)` for the optional last exception; `str(None)` is
`"None"`. -/
def pyStr : Option String → String
  | some e => e
  | none => "None"

/-- The message of the `ModerationError` raised by the retry wrapper after
exhausting all attempts (gemini_moderation.py lines 113-115). -/
def retryFailureMessage (max_retries : Nat) (last_exc : Option String) :
    String :=
  "Gemini moderation failed after " ++ toString max_retries ++
    " attempts: " ++ pyStr last_exc

/-- The `for attempt in range(1, max_retries + 1)` loop of
`_call_gemini_with_retry` (gemini_moderation.py lines 93-111): `attempt` is
the current 1-based attempt number and `remaining` the number of loop
iterations left (`max_retries - attempt + 1` at every entry).  Accumulates
the invocation count and the sleeps (in reverse). -/
def retryAux {α : Type} (work : Nat → Except String α) (backoff : Rat)
    (max_retries : Nat) :
    Nat → Nat → Nat → List Rat → Option String → RetryTrace α
  | _, 0, calls, sleeps, last_exc =>
      { calls := calls, sleeps := sleeps.reverse,
        outcome := Except.error (retryFailureMessage max_retries last_exc) }
  | attempt, remaining + 1, calls, sleeps, last_exc =>
      match work attempt with
      | .ok a =>
          { calls := calls + 1, sleeps := sleeps.reverse,
            outcome := Except.ok a }
      | .error e =>
          if attempt < max_retries then
            retryAux work backoff max_retries (attempt + 1) remaining
              (calls + 1) ((backoff * (attempt : Rat)) :: sleeps) (some e)
          else
            { calls := calls + 1, sleeps := sleeps.reverse,
              outcome :=
                Except.error (retryFailureMessage max_retries (some e)) }

/-- Model `_call_gemini_with_retry` of gemini_moderation.py lines 67-115,
with the unit of work abstracted as the outcome of each 1-based attempt. -/
def _call_gemini_with_retry {α : Type} (work : Nat → Except String α)
    (max_retries : Nat) (backoff_seconds : Rat) : RetryTrace α :=
  retryAux work backoff_seconds max_retries 1 max_retries 0 [] none

/-- Default `max_retries` of `_call_gemini_with_retry`. -/
def defaultMaxRetries : Nat := 3

/-- Default `backoff_seconds` of `_call_gemini_with_retry`. -/
def defaultBackoffSeconds : Rat := 1

/-- Job lifecycle states of `PipelineJobStatus.status` (ai_pipeline.py line
739: pending, processing, completed, failed). -/
inductive JobState
  | pending
  | processing
  | completed
  | failed
  deriving DecidableEq

/-- Model `PipelineJobStatus` of ai_pipeline.py lines 736-744 (timestamps as
abstract clock readings; the stored `result` is the pipeline response
itself, standing for its serialized form). -/
structure PipelineJobStatus where
  job_id : String
  status : JobState
  pipeline_type : String
  created_at : Nat
  completed_at : Option Nat
  result : Option VideoPipelineResponse
  error : Option String
  deriving DecidableEq

/-- The freshly created job of `process_video_async` (main.py lines
543-549). -/
def newVideoJob (job_id : String) (created_at : Nat) : PipelineJobStatus :=
  { job_id := job_id, status := JobState.pending, pipeline_type := "video",
    created_at := created_at, completed_at := none, result := none,
    error := none }

/-- Model the `run_pipeline` background closure of `process_video_async`
(main.py lines 552-568).  The orchestrator call is abstracted as an outcome
(a returned response, or a raised exception message); `finish_time` is the
clock reading taken at completion.  The returned list is the sequence of
snapshots handed to `store_job`, in order: first the `processing`
transition, then the terminal transition. -/
def run_pipeline (job : PipelineJobStatus)
    (orchestrator : Except String VideoPipelineResponse)
    (finish_time : Nat) : List PipelineJobStatus :=
  let j1 := { job with status := JobState.processing }
  match orchestrator with
  | .ok result =>
      [j1, { j1 with
             status := JobState.completed,
             completed_at := some finish_time,
             result := some result }]
  | .error e =>
      [j1, { j1 with
             status := JobState.failed,
             completed_at := some finish_time,
             error := some e }]

/-! Theorems.  Each claim's theorem is stated over the embedding above;
shared helper lemmas come first. -/

/-- A string whose first summand is nonempty is nonempty. -/
lemma string_append_ne_empty (a b : String) (h : a.data ≠ []) : a ++ b ≠ "" := by
  intro hab
  have hdata : (a ++ b).data = [] := by rw [hab]
  rw [String.data_append] at hdata
  exact h (List.append_eq_nil.mp hdata).1

/-- C2: in every video pipeline run whose transcription stage raises any
error (download failure, unsupported media, or any other exception) or
succeeds with empty/whitespace-only text, the run is short-circuited with
final verdict `error`, and both the text-moderation and summarization
stages are recorded as `skipped`. -/
theorem transcription_failure_short_circuits
    (request : VideoPipelineRequest) (env : VideoEnv)
    (h : (∃ msg, env.transcribe = TranscribeOutcome.downloadError msg) ∨
         (∃ msg, env.transcribe = TranscribeOutcome.unsupportedMediaError msg) ∨
         (∃ msg, env.transcribe = TranscribeOutcome.otherError msg) ∨
         (∃ r, env.transcribe = TranscribeOutcome.ok r ∧ pyStrip r.text = "")) :
    (VideoPipelineService.process request env).verdict = PipelineVerdict.ERROR ∧
    (VideoPipelineService.process request env).short_circuited = true ∧
    ((VideoPipelineService.process request env).stages.map
        fun st => (st.stage, st.status)).drop 1 =
      [("text_moderation", PipelineStatus.SKIPPED),
       ("summarization", PipelineStatus.SKIPPED)] := by
  obtain ⟨t, mo, su⟩ := env
  obtain ⟨url, lang, style, skipm, skips⟩ := request
  simp only at h
  rcases h with ⟨msg, h⟩ | ⟨msg, h⟩ | ⟨msg, h⟩ | ⟨r, h, he⟩ <;>
    subst h <;>
    cases skipm <;> cases skips <;> cases mo <;> cases su <;>
    simp_all [VideoPipelineService.process, videoStage1, videoStage2,
      videoStage3, initVideoState, mkStage, pyOrString]

/-- Witness for `transcription_failure_short_circuits` at a concrete
run. -/
theorem transcription_failure_short_circuits_witness :
    (VideoPipelineService.process
      { file_url := "http://x/v.mp4", language := none,
        summary_style := SummaryStyle.brief, skip_moderation := false,
        skip_summary := false }
      { transcribe := TranscribeOutcome.downloadError "connection reset",
        moderate_text := ModerateTextOutcome.ok
          { verdict := "safe", is_safe := true, flagged_categories := [],
            max_violation_score := 0, explanation := "" },
        summarize := SummarizeOutcome.ok "a summary" }).verdict =
      PipelineVerdict.ERROR := by
  exact (transcription_failure_short_circuits _ _
    (Or.inl ⟨"connection reset", rfl⟩)).1

/-- C1 counterexample: the summarization skip reason is not literally the
safety explanation.  In a run flagged unsafe with explanation
"graphic violence", the recorded skip reason is the prefixed string
"Content moderation failed: graphic violence"; and when the caller also
requested `skip_summary`, the reason is "Skipped by request", which does not
mention the explanation at all. -/
theorem unsafe_skip_reason_not_explanation :
    ((VideoPipelineService.process
      { file_url := "http://x/v.mp4", language := none,
        summary_style := SummaryStyle.brief, skip_moderation := false,
        skip_summary := false }
      { transcribe := TranscribeOutcome.ok
          { text := "hello", segments := [], duration := 1 },
        moderate_text := ModerateTextOutcome.ok
          { verdict := "unsafe", is_safe := false,
            flagged_categories := ["violence"], max_violation_score := 1,
            explanation := "graphic violence" },
        summarize := SummarizeOutcome.ok "a summary" }).stages.map
        (fun st => st.data)).drop 2 =
      [some (StageData.skipReason "Content moderation failed: graphic violence")] ∧
    "Content moderation failed: graphic violence" ≠ "graphic violence" ∧
    ((VideoPipelineService.process
      { file_url := "http://x/v.mp4", language := none,
        summary_style := SummaryStyle.brief, skip_moderation := false,
        skip_summary := true }
      { transcribe := TranscribeOutcome.ok
          { text := "hello", segments := [], duration := 1 },
        moderate_text := ModerateTextOutcome.ok
          { verdict := "unsafe", is_safe := false,
            flagged_categories := ["violence"], max_violation_score := 1,
            explanation := "graphic violence" },
        summarize := SummarizeOutcome.ok "a summary" }).stages.map
        (fun st => st.data)).drop 2 =
      [some (StageData.skipReason "Skipped by request")] := by
  refine ⟨by decide, by decide, by decide⟩

/-- C1 (amended): in every video pipeline run in which the text-moderation
stage completes and reports the content unsafe, the run is short-circuited:
the final verdict is `unsafe`, `is_safe` is false, no summary data is
produced, and the summarization stage is recorded as `skipped` whose reason
is "Content moderation failed: " followed by the first 200 characters of
the safety explanation — except when summarization was skipped by request,
where the reason is "Skipped by request". -/
theorem unsafe_moderation_short_circuits
    (request : VideoPipelineRequest) (env : VideoEnv)
    (r : WhisperResult) (m : ShieldGemmaResult)
    (ht : env.transcribe = TranscribeOutcome.ok r)
    (hne : pyStrip r.text ≠ "")
    (hskip : request.skip_moderation = false)
    (hm : env.moderate_text = ModerateTextOutcome.ok m)
    (hflag : m.is_safe = false) :
    (VideoPipelineService.process request env).verdict = PipelineVerdict.UNSAFE ∧
    (VideoPipelineService.process request env).is_safe = false ∧
    (VideoPipelineService.process request env).short_circuited = true ∧
    (VideoPipelineService.process request env).summary = none ∧
    (VideoPipelineService.process request env).stages.map StageResult.stage =
      ["transcription", "text_moderation", "summarization"] ∧
    ((VideoPipelineService.process request env).stages.map
        fun st => (st.status, st.data)).drop 2 =
      [(PipelineStatus.SKIPPED, some (StageData.skipReason
        (if request.skip_summary then "Skipped by request"
         else "Content moderation failed: " ++ pyTake 200 m.explanation)))] := by
  obtain ⟨t, mo, su⟩ := env
  obtain ⟨url, lang, style, skipm, skips⟩ := request
  simp only at ht hm hskip ⊢
  subst ht hm hskip
  have hr : ("Content moderation failed: " ++ pyTake 200 m.explanation) ≠ "" :=
    string_append_ne_empty _ _ (by decide)
  cases skips <;> cases su <;>
    simp [VideoPipelineService.process, videoStage1, videoStage2,
      videoStage3, initVideoState, mkStage, pyOrString, hne, hflag, hr]

/-- Witness for `unsafe_moderation_short_circuits` at a concrete run. -/
theorem unsafe_moderation_short_circuits_witness :
    (VideoPipelineService.process
      { file_url := "http://x/v.mp4", language := none,
        summary_style := SummaryStyle.brief, skip_moderation := false,
        skip_summary := false }
      { transcribe := TranscribeOutcome.ok
          { text := "hello", segments := [], duration := 1 },
        moderate_text := ModerateTextOutcome.ok
          { verdict := "unsafe", is_safe := false,
            flagged_categories := ["violence"], max_violation_score := 1,
            explanation := "graphic violence" },
        summarize := SummarizeOutcome.ok "a summary" }).verdict =
      PipelineVerdict.UNSAFE := by
  exact (unsafe_moderation_short_circuits _ _
    { text := "hello", segments := [], duration := 1 }
    { verdict := "unsafe", is_safe := false,
      flagged_categories := ["violence"], max_violation_score := 1,
      explanation := "graphic violence" }
    rfl (by decide) rfl rfl rfl).1

/-- C3 counterexample: when the moderation call raises an exception that is
not the service's typed `ShieldGemmaError`, no degraded moderation record is
produced — `text_moderation` stays absent — even though the moderation stage
did fail and the run continues to summarization. -/
theorem moderation_generic_error_records_no_data :
    (VideoPipelineService.process
      { file_url := "http://x/v.mp4", language := none,
        summary_style := SummaryStyle.brief, skip_moderation := false,
        skip_summary := false }
      { transcribe := TranscribeOutcome.ok
          { text := "hello", segments := [], duration := 1 },
        moderate_text := ModerateTextOutcome.otherError "executor crashed",
        summarize := SummarizeOutcome.ok "a summary" }).text_moderation =
      none ∧
    ((VideoPipelineService.process
      { file_url := "http://x/v.mp4", language := none,
        summary_style := SummaryStyle.brief, skip_moderation := false,
        skip_summary := false }
      { transcribe := TranscribeOutcome.ok
          { text := "hello", segments := [], duration := 1 },
        moderate_text := ModerateTextOutcome.otherError "executor crashed",
        summarize := SummarizeOutcome.ok "a summary" }).stages.map
        fun st => (st.stage, st.status)) =
      [("transcription", PipelineStatus.COMPLETED),
       ("text_moderation", PipelineStatus.FAILED),
       ("summarization", PipelineStatus.COMPLETED)] := by
  exact ⟨by decide, by decide⟩

/-- C3 (amended): when the text-moderation call fails with the service's
typed `ShieldGemmaError`, a degraded `TextModerationData` (verdict "error",
`is_safe` false) is recorded; when it fails with any other exception, no
moderation data is recorded at all.  In both cases the run is not
short-circuited, the final verdict stays `safe`, and the summarization stage
still executes (completes or fails, but is not skipped) when not skipped by
request. -/
theorem moderation_service_error_degrades
    (request : VideoPipelineRequest) (env : VideoEnv)
    (r : WhisperResult) (msg : String)
    (ht : env.transcribe = TranscribeOutcome.ok r)
    (hne : pyStrip r.text ≠ "")
    (hskip : request.skip_moderation = false)
    (hm : env.moderate_text = ModerateTextOutcome.shieldGemmaError msg ∨
          env.moderate_text = ModerateTextOutcome.otherError msg) :
    (VideoPipelineService.process request env).short_circuited = false ∧
    (VideoPipelineService.process request env).verdict = PipelineVerdict.SAFE ∧
    (env.moderate_text = ModerateTextOutcome.shieldGemmaError msg →
      (VideoPipelineService.process request env).text_moderation =
        some (degradedModeration msg)) ∧
    (env.moderate_text = ModerateTextOutcome.otherError msg →
      (VideoPipelineService.process request env).text_moderation = none) ∧
    (request.skip_summary = false →
      ((VideoPipelineService.process request env).stages.map
          fun st => (st.stage, st.status)).drop 2 =
        [("summarization",
          match env.summarize with
          | SummarizeOutcome.ok _ => PipelineStatus.COMPLETED
          | SummarizeOutcome.failure _ => PipelineStatus.FAILED)]) := by
  obtain ⟨t, mo, su⟩ := env
  obtain ⟨url, lang, style, skipm, skips⟩ := request
  simp only at ht hskip hm ⊢
  subst ht hskip
  rcases hm with hm | hm <;>
    subst hm <;>
    cases skips <;> cases su <;>
    simp [VideoPipelineService.process, videoStage1, videoStage2,
      videoStage3, initVideoState, mkStage, pyOrString, hne]

/-- Witness for `moderation_service_error_degrades` at a concrete run. -/
theorem moderation_service_error_degrades_witness :
    (VideoPipelineService.process
      { file_url := "http://x/v.mp4", language := none,
        summary_style := SummaryStyle.brief, skip_moderation := false,
        skip_summary := false }
      { transcribe := TranscribeOutcome.ok
          { text := "hello", segments := [], duration := 1 },
        moderate_text := ModerateTextOutcome.shieldGemmaError "model down",
        summarize := SummarizeOutcome.ok "a summary" }).short_circuited =
      false := by
  exact (moderation_service_error_degrades _ _
    { text := "hello", segments := [], duration := 1 } "model down"
    rfl (by decide) rfl (Or.inl rfl)).1

/-- C4: for every (non-animated-image) video pipeline run, the final verdict
is `safe` unless stage 1 raised or produced empty text (then `error`) or
stage 2 ran and explicitly flagged the content (then `unsafe`); the
summarization outcome never alters the verdict; and `is_safe` is false
exactly when the verdict is `unsafe` (an `error` verdict leaves `is_safe`
at its initial value `true`). -/
theorem video_verdict_characterization
    (request : VideoPipelineRequest) (env : VideoEnv) :
    (VideoPipelineService.process request env).verdict =
      videoVerdictSpec request env ∧
    ((VideoPipelineService.process request env).is_safe = false ↔
      (VideoPipelineService.process request env).verdict =
        PipelineVerdict.UNSAFE) ∧
    (∀ o : SummarizeOutcome,
      (VideoPipelineService.process request
        { env with summarize := o }).verdict =
      (VideoPipelineService.process request env).verdict) := by
  obtain ⟨t, mo, su⟩ := env
  obtain ⟨url, lang, style, skipm, skips⟩ := request
  refine ⟨?_, ?_, ?_⟩
  · cases t with
    | ok r =>
        by_cases he : pyStrip r.text = "" <;>
        rcases mo with ⟨⟨mv, msafe, mfc, mmax, mex⟩⟩ | msg | msg <;>
        first
        | (cases msafe <;> cases skipm <;> cases skips <;> cases su <;>
            simp [VideoPipelineService.process, videoStage1, videoStage2,
              videoStage3, initVideoState, mkStage, pyOrString,
              videoVerdictSpec, he])
        | (cases skipm <;> cases skips <;> cases su <;>
            simp [VideoPipelineService.process, videoStage1, videoStage2,
              videoStage3, initVideoState, mkStage, pyOrString,
              videoVerdictSpec, he])
    | downloadError msg =>
        cases skipm <;> cases skips <;> cases mo <;> cases su <;>
          simp [VideoPipelineService.process, videoStage1, videoStage2,
            videoStage3, initVideoState, mkStage, pyOrString,
            videoVerdictSpec]
    | unsupportedMediaError msg =>
        cases skipm <;> cases skips <;> cases mo <;> cases su <;>
          simp [VideoPipelineService.process, videoStage1, videoStage2,
            videoStage3, initVideoState, mkStage, pyOrString,
            videoVerdictSpec]
    | otherError msg =>
        cases skipm <;> cases skips <;> cases mo <;> cases su <;>
          simp [VideoPipelineService.process, videoStage1, videoStage2,
            videoStage3, initVideoState, mkStage, pyOrString,
            videoVerdictSpec]
  · cases t with
    | ok r =>
        by_cases he : pyStrip r.text = "" <;>
        rcases mo with ⟨⟨mv, msafe, mfc, mmax, mex⟩⟩ | msg | msg <;>
        first
        | (cases msafe <;> cases skipm <;> cases skips <;> cases su <;>
            simp [VideoPipelineService.process, videoStage1, videoStage2,
              videoStage3, initVideoState, mkStage, pyOrString, he])
        | (cases skipm <;> cases skips <;> cases su <;>
            simp [VideoPipelineService.process, videoStage1, videoStage2,
              videoStage3, initVideoState, mkStage, pyOrString, he])
    | downloadError msg =>
        cases skipm <;> cases skips <;> cases mo <;> cases su <;>
          simp [VideoPipelineService.process, videoStage1, videoStage2,
            videoStage3, initVideoState, mkStage, pyOrString]
    | unsupportedMediaError msg =>
        cases skipm <;> cases skips <;> cases mo <;> cases su <;>
          simp [VideoPipelineService.process, videoStage1, videoStage2,
            videoStage3, initVideoState, mkStage, pyOrString]
    | otherError msg =>
        cases skipm <;> cases skips <;> cases mo <;> cases su <;>
          simp [VideoPipelineService.process, videoStage1, videoStage2,
            videoStage3, initVideoState, mkStage, pyOrString]
  · intro o
    cases t with
    | ok r =>
        by_cases he : pyStrip r.text = "" <;>
        rcases mo with ⟨⟨mv, msafe, mfc, mmax, mex⟩⟩ | msg | msg <;>
        first
        | (cases msafe <;> cases skipm <;> cases skips <;> cases su <;>
            cases o <;>
            simp [VideoPipelineService.process, videoStage1, videoStage2,
              videoStage3, initVideoState, mkStage, pyOrString, he])
        | (cases skipm <;> cases skips <;> cases su <;> cases o <;>
            simp [VideoPipelineService.process, videoStage1, videoStage2,
              videoStage3, initVideoState, mkStage, pyOrString, he])
    | downloadError msg =>
        cases skipm <;> cases skips <;> cases mo <;> cases su <;> cases o <;>
          simp [VideoPipelineService.process, videoStage1, videoStage2,
            videoStage3, initVideoState, mkStage, pyOrString]
    | unsupportedMediaError msg =>
        cases skipm <;> cases skips <;> cases mo <;> cases su <;> cases o <;>
          simp [VideoPipelineService.process, videoStage1, videoStage2,
            videoStage3, initVideoState, mkStage, pyOrString]
    | otherError msg =>
        cases skipm <;> cases skips <;> cases mo <;> cases su <;> cases o <;>
          simp [VideoPipelineService.process, videoStage1, videoStage2,
            videoStage3, initVideoState, mkStage, pyOrString]

/-- Splitting at the first colon of `xs ++ ':' :: ys` recovers `xs` and `ys`
when `xs` itself holds no colon. -/
lemma splitFirstColon_append (xs ys : List Char) (h : ':' ∉ xs) :
    splitFirstColon (xs ++ ':' :: ys) = some (xs, ys) := by
  induction xs with
  | nil => simp [splitFirstColon]
  | cons c cs ih =>
      have hc : ¬(c = ':') := fun hh => h (hh ▸ List.mem_cons_self c cs)
      simp [splitFirstColon, hc,
        ih fun hm => h (List.mem_cons_of_mem _ hm)]

/-- On a well-formed `<name>:<severity>` entry, `severityStrOf` returns the
severity part, stripped and lowercased. -/
lemma severityStrOf_wf (name sev : String) (h : ':' ∉ name.data) :
    severityStrOf (name ++ ":" ++ sev) = pyLower (pyStrip sev) := by
  have hdata : (name ++ ":" ++ sev).data = name.data ++ ':' :: sev.data := by
    simp [String.data_append]
  unfold severityStrOf
  rw [hdata, splitFirstColon_append _ _ h]

/-- On a well-formed entry whose severity is one of the four recognised
names, the rank read by `_apply_threshold` is the rank of that severity. -/
lemma severityRank_of_wf (name sev : String) (hname : ':' ∉ name.data)
    (hsev : sev ∈ ["none", "mild", "moderate", "severe"]) :
    severityRank (severityStrOf (name ++ ":" ++ sev)) = severityRank sev := by
  rw [severityStrOf_wf name sev hname]
  simp only [List.mem_cons, List.not_mem_nil, or_false] at hsev
  rcases hsev with rfl | rfl | rfl | rfl <;> decide

/-- Folding the severity maximum over rendered `<name>:<severity>` entries
equals folding it over the severities themselves. -/
lemma foldl_severity_map (pairs : List (String × String))
    (hwf : ∀ p ∈ pairs, (':' ∉ p.1.data) ∧
      p.2 ∈ ["none", "mild", "moderate", "severe"]) :
    ∀ acc : Nat,
      (pairs.map fun p => p.1 ++ ":" ++ p.2).foldl
        (fun acc cat => max acc (severityRank (severityStrOf cat))) acc =
      pairs.foldl (fun acc p => max acc (severityRank p.2)) acc := by
  induction pairs with
  | nil => intro acc; rfl
  | cons p ps ih =>
      intro acc
      have hp := hwf p (List.mem_cons_self p ps)
      simp only [List.map_cons, List.foldl_cons]
      rw [severityRank_of_wf p.1 p.2 hp.1 hp.2]
      exact ih (fun q hq => hwf q (List.mem_cons_of_mem _ hq)) _

/-- C5: on category strings of the form `<name>:<severity>`, the threshold
classifies content as unsafe exactly when the maximum reported severity
exceeds the level's cutoff (strict: above `none`; moderate: above `mild`;
lenient: only `severe`), and the `is_safe` the image moderation returns is
the AND of the threshold verdict and the negation of the classifier's own
flagged judgment. -/
theorem threshold_and_flag_conjunction
    (pairs : List (String × String)) (level : SafetyLevel)
    (hwf : ∀ p ∈ pairs, (':' ∉ p.1.data) ∧
      p.2 ∈ ["none", "mild", "moderate", "severe"]) :
    (_apply_threshold (pairs.map fun p => p.1 ++ ":" ++ p.2) level = false ↔
      levelCutoff level < maxSeveritySpec pairs) ∧
    (∀ (data : GeminiJson) (lvl : SafetyLevel),
      (moderate_image_decision data lvl).is_safe =
        (_apply_threshold (data.categories.getD []) lvl &&
          !(data.is_flagged.getD false))) := by
  constructor
  · unfold _apply_threshold maxSeveritySpec
    rw [foldl_severity_map pairs hwf]
    cases level <;>
      simp [levelCutoff, decide_eq_false_iff_not, not_le] <;>
      omega
  · intro data lvl
    rfl

/-- Witness for `threshold_and_flag_conjunction`, on the spec's own
examples. -/
theorem threshold_and_flag_conjunction_witness :
    _apply_threshold ["violence:severe"] SafetyLevel.STRICT = false ∧
    _apply_threshold ["violence:severe"] SafetyLevel.LENIENT = false ∧
    _apply_threshold ["violence:mild"] SafetyLevel.LENIENT = true := by
  refine ⟨?_, ?_, ?_⟩
  · exact (threshold_and_flag_conjunction [("violence", "severe")]
      SafetyLevel.STRICT (by decide)).1.mpr (by decide)
  · exact (threshold_and_flag_conjunction [("violence", "severe")]
      SafetyLevel.LENIENT (by decide)).1.mpr (by decide)
  · have h := (threshold_and_flag_conjunction [("violence", "mild")]
      SafetyLevel.LENIENT (by decide)).1
    cases hb : _apply_threshold ["violence:mild"] SafetyLevel.LENIENT
    · exact absurd (h.mp hb) (by decide)
    · rfl

/-- C6 counterexample: on a transport failure the image-moderation stage's
skip reason is the capitalized "Download failed", not the claim's quoted
"download failed". -/
theorem download_skip_reason_capitalized :
    ((ImagePipelineService.process
      { file_url := "http://x/a.png", safety_level := SafetyLevel.MODERATE,
        user := none }
      { download := DownloadOutcome.httpError "timeout",
        gif_convert := GifConvertOutcome.ok [],
        moderate := ImageModerateOutcome.ok
          { is_safe := true, reason := "fine", categories := [],
            level := "moderate" } }).stages.map fun st => st.data) =
      [none, some (StageData.skipReason "Download failed")] ∧
    "Download failed" ≠ "download failed" := by
  exact ⟨by decide, by decide⟩

/-- C6 (amended): every image pipeline run whose download raises a transport
(HTTP) error ends with verdict `error`, the download stage recorded as
`failed`, and the image-moderation stage recorded as `skipped` with reason
"Download failed" rather than as completed. -/
theorem download_http_error_skips_moderation
    (request : ImagePipelineRequest) (env : ImageEnv) (msg : String)
    (h : env.download = DownloadOutcome.httpError msg) :
    (ImagePipelineService.process request env).verdict =
      PipelineVerdict.ERROR ∧
    ((ImagePipelineService.process request env).stages.map
        fun st => (st.stage, st.status, st.data)) =
      [("download", PipelineStatus.FAILED, none),
       ("image_moderation", PipelineStatus.SKIPPED,
        some (StageData.skipReason "Download failed"))] ∧
    (ImagePipelineService.process request env).moderation = none := by
  obtain ⟨d, g, mo⟩ := env
  simp only at h
  subst h
  simp [ImagePipelineService.process, mkStage]

/-- Witness for `download_http_error_skips_moderation` at a concrete
run. -/
theorem download_http_error_skips_moderation_witness :
    (ImagePipelineService.process
      { file_url := "http://x/a.png", safety_level := SafetyLevel.MODERATE,
        user := none }
      { download := DownloadOutcome.httpError "timeout",
        gif_convert := GifConvertOutcome.ok [],
        moderate := ImageModerateOutcome.ok
          { is_safe := true, reason := "fine", categories := [],
            level := "moderate" } }).verdict = PipelineVerdict.ERROR := by
  exact (download_http_error_skips_moderation _ _ "timeout" rfl).1

/-- C7: a download transport failure leaves the image response's `is_safe`
at its initial value `true` even though the verdict is `error`; the
fail-safe forcing of `is_safe = false` happens on moderation-stage failures
and on GIF normalization failures, never on download failures. -/
theorem fail_safe_not_applied_on_download_error
    (request : ImagePipelineRequest) (env : ImageEnv) :
    (∀ msg, env.download = DownloadOutcome.httpError msg →
      (ImagePipelineService.process request env).is_safe = true ∧
      (ImagePipelineService.process request env).verdict =
        PipelineVerdict.ERROR) ∧
    (∀ content ctype msg,
      env.download = DownloadOutcome.ok content ctype →
      pyStartsWith (pyLower (ctype.getD "image/jpeg")) "image/gif" = false →
      (env.moderate = ImageModerateOutcome.moderationError msg ∨
        env.moderate = ImageModerateOutcome.otherError msg) →
      (ImagePipelineService.process request env).is_safe = false ∧
      (ImagePipelineService.process request env).verdict =
        PipelineVerdict.ERROR) ∧
    (∀ content ctype msg,
      env.download = DownloadOutcome.ok content ctype →
      pyStartsWith (pyLower (ctype.getD "image/jpeg")) "image/gif" = true →
      env.gif_convert = GifConvertOutcome.failure msg →
      (ImagePipelineService.process request env).is_safe = false ∧
      (ImagePipelineService.process request env).verdict =
        PipelineVerdict.ERROR) := by
  obtain ⟨d, g, mo⟩ := env
  refine ⟨?_, ?_, ?_⟩
  · intro msg h
    simp only at h
    subst h
    simp [ImagePipelineService.process, mkStage]
  · intro content ctype msg hd hmime hmo
    simp only at hd hmime hmo
    subst hd
    rcases hmo with hmo | hmo <;>
      subst hmo <;>
      simp [ImagePipelineService.process, imageModerationPhase, mkStage, hmime]
  · intro content ctype msg hd hmime hg
    simp only at hd hmime hg
    subst hd
    subst hg
    simp [ImagePipelineService.process, mkStage, hmime]

/-- Witness for `fail_safe_not_applied_on_download_error` at a concrete
run. -/
theorem fail_safe_not_applied_on_download_error_witness :
    (ImagePipelineService.process
      { file_url := "http://x/a.png", safety_level := SafetyLevel.MODERATE,
        user := none }
      { download := DownloadOutcome.httpError "timeout",
        gif_convert := GifConvertOutcome.ok [],
        moderate := ImageModerateOutcome.ok
          { is_safe := true, reason := "fine", categories := [],
            level := "moderate" } }).is_safe = true := by
  exact ((fail_safe_not_applied_on_download_error _ _).1 "timeout" rfl).1

/-- C8 counterexample: the short-circuit reason of the GIF route is the full
string "GIF content routed through image moderation", not the claim's quoted
"routed through image moderation". -/
theorem gif_short_circuit_reason_full_string :
    (process_video
      { file_url := "http://x/anim.gif", language := none,
        summary_style := SummaryStyle.brief, skip_moderation := false,
        skip_summary := false }
      "/anim.gif"
      { download := DownloadOutcome.ok [7] (some "image/gif"),
        gif_convert := GifConvertOutcome.ok [9],
        moderate := ImageModerateOutcome.ok
          { is_safe := true, reason := "fine", categories := [],
            level := "moderate" } }
      { transcribe := TranscribeOutcome.otherError "never used",
        moderate_text := ModerateTextOutcome.otherError "never used",
        summarize := SummarizeOutcome.failure "never used"
      }).short_circuit_reason =
      some "GIF content routed through image moderation" ∧
    some "GIF content routed through image moderation" ≠
      (some "routed through image moderation" : Option String) := by
  exact ⟨by decide, by decide⟩

/-- C8 (amended): every video pipeline request whose file URL path ends in
`.gif` runs no transcription, text-moderation, or summarization stage; it
delegates to the image pipeline and returns a response with exactly one
stage, named `gif_image_moderation`, with `short_circuited = true` and
short-circuit reason "GIF content routed through image moderation". -/
theorem gif_routes_through_image_pipeline
    (request : VideoPipelineRequest) (parsed_path : String)
    (ienv : ImageEnv) (venv : VideoEnv)
    (h : pyEndsWith (pyLower parsed_path) ".gif" = true) :
    (process_video request parsed_path ienv venv).stages.map
        StageResult.stage = ["gif_image_moderation"] ∧
    (process_video request parsed_path ienv venv).short_circuited = true ∧
    (process_video request parsed_path ienv venv).short_circuit_reason =
      some "GIF content routed through image moderation" ∧
    (process_video request parsed_path ienv venv).transcription = none ∧
    (process_video request parsed_path ienv venv).text_moderation = none ∧
    (process_video request parsed_path ienv venv).summary = none ∧
    (process_video request parsed_path ienv venv).is_safe =
      (ImagePipelineService.process
        { file_url := request.file_url,
          safety_level := SafetyLevel.MODERATE, user := none } ienv).is_safe := by
  simp [process_video, mkStage, h]

/-- Witness for `gif_routes_through_image_pipeline` at a concrete
request. -/
theorem gif_routes_through_image_pipeline_witness :
    (process_video
      { file_url := "http://x/anim.gif", language := none,
        summary_style := SummaryStyle.brief, skip_moderation := false,
        skip_summary := false }
      "/anim.gif"
      { download := DownloadOutcome.ok [7] (some "image/gif"),
        gif_convert := GifConvertOutcome.ok [9],
        moderate := ImageModerateOutcome.ok
          { is_safe := true, reason := "fine", categories := [],
            level := "moderate" } }
      { transcribe := TranscribeOutcome.otherError "never used",
        moderate_text := ModerateTextOutcome.otherError "never used",
        summarize := SummarizeOutcome.failure "never used"
      }).stages.map StageResult.stage = ["gif_image_moderation"] := by
  exact (gif_routes_through_image_pipeline _ "/anim.gif" _ _ (by decide)).1

/-- When the unit of work fails at every attempt, the retry loop starting at
attempt `a` with `r ≥ 1` iterations left performs exactly `r` further calls,
sleeps `backoff * i` for `i = a, …, a + r - 2`, and ends with the failure
message built from the last attempt's exception. -/
lemma retryAux_always_fails {α : Type} (work : Nat → Except String α)
    (errs : Nat → String) (hfail : ∀ i, work i = Except.error (errs i))
    (backoff : Rat) (max_retries : Nat) :
    ∀ remaining, 1 ≤ remaining →
    ∀ attempt calls sleeps last_exc,
      attempt + remaining = max_retries + 1 →
      retryAux work backoff max_retries attempt remaining calls sleeps
        last_exc =
      { calls := calls + remaining,
        sleeps := sleeps.reverse ++
          ((List.range' attempt (remaining - 1)).map
            fun i => backoff * (i : Rat)),
        outcome := Except.error
          (retryFailureMessage max_retries (some (errs max_retries))) } := by
  intro remaining
  induction remaining with
  | zero => intro h; exact absurd h (by omega)
  | succ r ih =>
      intro _ attempt calls sleeps last_exc hsum
      rw [retryAux, hfail attempt]
      by_cases hlt : attempt < max_retries
      · have hr : 1 ≤ r := by omega
        simp only [hlt, if_true]
        rw [ih hr (attempt + 1) (calls + 1)
          ((backoff * (attempt : Rat)) :: sleeps) (some (errs attempt))
          (by omega)]
        obtain ⟨r', rfl⟩ : ∃ r', r = r' + 1 := ⟨r - 1, by omega⟩
        have hrange : List.range' attempt (r' + 1) =
            attempt :: List.range' (attempt + 1) r' :=
          List.range'_succ attempt r' 1
        simp [hrange, Nat.add_assoc, Nat.add_comm 1 (r' + 1)]
      · have hatt : attempt = max_retries := by omega
        have hr0 : r = 0 := by omega
        subst hatt hr0
        simp only [hlt, if_false]
        simp

/-- C9: a unit of work that fails on every attempt is invoked exactly
`max_retries` times (default 3), the wrapper sleeps
`backoff_seconds * attempt_number` between consecutive attempts, and after
the final attempt it raises a `ModerationError` whose message names the
attempt count and the last underlying exception. -/
theorem retry_exhaustion {α : Type} (work : Nat → Except String α)
    (errs : Nat → String) (max_retries : Nat) (backoff : Rat)
    (hfail : ∀ i, work i = Except.error (errs i))
    (hpos : 1 ≤ max_retries) :
    (_call_gemini_with_retry work max_retries backoff).calls = max_retries ∧
    (_call_gemini_with_retry work max_retries backoff).sleeps =
      (List.range' 1 (max_retries - 1)).map (fun i => backoff * (i : Rat)) ∧
    (_call_gemini_with_retry work max_retries backoff).outcome =
      Except.error ("Gemini moderation failed after " ++
        toString max_retries ++ " attempts: " ++ errs max_retries) ∧
    defaultMaxRetries = 3 := by
  have h := retryAux_always_fails work errs hfail backoff max_retries
    max_retries hpos 1 0 [] none (by omega)
  unfold _call_gemini_with_retry
  rw [h]
  refine ⟨by simp, by simp, ?_, rfl⟩
  simp [retryFailureMessage, pyStr]

/-- Witness for `retry_exhaustion` at a concrete always-failing unit of
work with the default parameters. -/
theorem retry_exhaustion_witness :
    (_call_gemini_with_retry
      (fun _ => (Except.error "boom" : Except String Nat))
      defaultMaxRetries defaultBackoffSeconds).calls = 3 ∧
    (_call_gemini_with_retry
      (fun _ => (Except.error "boom" : Except String Nat))
      defaultMaxRetries defaultBackoffSeconds).outcome =
      Except.error "Gemini moderation failed after 3 attempts: boom" := by
  have h := retry_exhaustion
    (fun _ => (Except.error "boom" : Except String Nat))
    (fun _ => "boom") defaultMaxRetries defaultBackoffSeconds
    (fun _ => rfl) (by decide)
  exact ⟨h.1, h.2.2.1⟩

/-- C10: the background execution of an asynchronous video job first stores
the job with status `processing`, and whether the orchestrator returns or
raises, the last stored snapshot is terminal — `completed` with the result
stored, or `failed` with the exception message stored — carrying a
completion timestamp; it is never left `processing`. -/
theorem background_job_never_stuck
    (job : PipelineJobStatus) (o : Except String VideoPipelineResponse)
    (t : Nat) :
    ((run_pipeline job o t).head?.map PipelineJobStatus.status =
      some JobState.processing) ∧
    ((run_pipeline job o t).getLast?.map PipelineJobStatus.status ≠
      some JobState.processing) ∧
    ((run_pipeline job o t).getLast?.map PipelineJobStatus.completed_at =
      some (some t)) ∧
    (∀ r, o = Except.ok r →
      (run_pipeline job o t).getLast?.map (fun j => (j.status, j.result)) =
        some (JobState.completed, some r)) ∧
    (∀ e, o = Except.error e →
      (run_pipeline job o t).getLast?.map (fun j => (j.status, j.error)) =
        some (JobState.failed, some e)) := by
  cases o <;> simp [run_pipeline]

/-- Witness for `background_job_never_stuck` at a concrete crashing run. -/
theorem background_job_never_stuck_witness :
    (run_pipeline (newVideoJob "job-1" 0) (Except.error "orchestrator crash")
        5).getLast?.map (fun j => (j.status, j.error)) =
      some (JobState.failed, some "orchestrator crash") := by
  exact (background_job_never_stuck (newVideoJob "job-1" 0)
    (Except.error "orchestrator crash") 5).2.2.2.2 "orchestrator crash" rfl

end MediaPipeline
